import Mathlib

/-!
# abcweb `migrate` command: embedding and verification

Shallow embedding of `cmd/migrate.go`: the two connection-string renderers
(`mysqlConnStr`, `postgresConnStr`) and the command pipeline `migrateExec`,
together with the small parts of the Go standard library they call
(`len`, `fmt.Sprintf`, `bytes.Buffer`, `strings.Join`).

Go strings are byte sequences.  They are represented by Lean strings; the
program only concatenates them, compares them with literals and tests them
for emptiness, and these operations agree on both representations.
Go `int` is represented by `Int`: the program performs no arithmetic on it.
-/

/-! ## Go built-ins and standard library -/

/-- Go `len(s)` for a string: its length in bytes. -/
def len (s : String) : Nat := s.utf8ByteSize

namespace strconv

/-- Base-10 rendering of a Go `int` (what the verb `%d` prints): an optional
minus sign followed by the decimal digits of the magnitude. -/
def Itoa : Int → String
  | Int.ofNat m => Nat.repr m
  | Int.negSucc m => "-" ++ Nat.repr (m + 1)

end strconv

namespace fmt

/-- Operands of `Sprintf` that occur in the program: `string` and `int`. -/
inductive Arg where
  | str (s : String)
  | int (n : Int)
deriving DecidableEq, Repr

/-- Text printed for one operand under the verb `v`: `%s` prints a string
operand unchanged, `%d` prints an int operand in base 10.  Every other
combination is outside the modelled fragment (`none`). -/
def verb (v : Char) (a : Arg) : Option String :=
  match a with
  | Arg.str s => if v = 's' then some s else none
  | Arg.int n => if v = 'd' then some (strconv.Itoa n) else none

/-- Walk of `Sprintf` over the remaining format bytes and operands.  Bytes
other than `%` are copied; `%` followed by a verb consumes the next operand.
A directive outside the fragment of `verb` (where Go prints a `%!` diagnostic)
does not occur in the program and is copied unchanged here. -/
def sprintfAux : List Char → List Arg → String
  | [], _ => ""
  | [c], _ => String.singleton c
  | c :: v :: rest, args =>
    if c = '%' then
      match args with
      | a :: args' =>
        match verb v a with
        | some s => s ++ sprintfAux rest args'
        | none => String.singleton c ++ sprintfAux (v :: rest) args
      | [] => String.singleton c ++ sprintfAux (v :: rest) args
    else String.singleton c ++ sprintfAux (v :: rest) args

/-- Go `fmt.Sprintf(format, args...)` for the verbs `%s` and `%d`. -/
def Sprintf (format : String) (args : List Arg) : String :=
  sprintfAux format.data args

end fmt

namespace bytes

/-- Go `bytes.Buffer`: the bytes written so far.  The zero value is empty. -/
structure Buffer where
  buf : String
deriving DecidableEq, Repr

/-- Zero value of `bytes.Buffer` (`var out bytes.Buffer`). -/
def Buffer.zero : Buffer := ⟨""⟩

/-- Go `(*Buffer).WriteString`: append the string. -/
def Buffer.WriteString (b : Buffer) (s : String) : Buffer := ⟨b.buf ++ s⟩

/-- Go `(*Buffer).WriteByte`: append one byte. -/
def Buffer.WriteByte (b : Buffer) (c : Char) : Buffer := ⟨b.buf.push c⟩

/-- Go `(*Buffer).String`: the contents. -/
def Buffer.contents (b : Buffer) : String := b.buf

end bytes

namespace strings

/-- Go `strings.Join(elems, sep)`: the elements in order with `sep` between
each two neighbours; nothing before the first or after the last. -/
def Join : List String → String → String
  | [], _ => ""
  | [e], _ => e
  | e :: e' :: es, sep => e ++ sep ++ Join (e' :: es) sep

end strings

/-! ## Package `cmd`: data model and renderers -/

namespace cmd

/-- The `migrateConfig` struct read by `migrateExec` and the renderers.  Its
declaration is in another file of the package; the fields are those the source
assigns: six strings and `Port`, assigned from `GetInt`. -/
structure migrateConfig where
  DB : String
  DBName : String
  User : String
  Pass : String
  Host : String
  Port : Int
  SSLMode : String
deriving DecidableEq, Repr

/-- Source `mysqlConnStr` (migrate.go 164-179). -/
def mysqlConnStr (cfg : migrateConfig) : String :=
  let out := bytes.Buffer.zero
  let out := out.WriteString cfg.User
  let out := if len cfg.Pass > 0 then (out.WriteByte ':').WriteString cfg.Pass else out
  let out := out.WriteString
    (fmt.Sprintf "@tcp(%s:%d)/%s" [fmt.Arg.str cfg.Host, fmt.Arg.int cfg.Port, fmt.Arg.str cfg.DBName])
  let out := if len cfg.SSLMode > 0 then (out.WriteString "?tls=").WriteString cfg.SSLMode else out
  out.contents

/-- Source `postgresConnStr` (migrate.go 184-204). -/
def postgresConnStr (cfg : migrateConfig) : String :=
  let connStrs := [fmt.Sprintf "user=%s" [fmt.Arg.str cfg.User]]
  let connStrs :=
    if len cfg.Pass > 0 then connStrs ++ [fmt.Sprintf "password=%s" [fmt.Arg.str cfg.Pass]]
    else connStrs
  let connStrs := connStrs ++ [
    fmt.Sprintf "host=%s" [fmt.Arg.str cfg.Host],
    fmt.Sprintf "port=%d" [fmt.Arg.int cfg.Port],
    fmt.Sprintf "dbname=%s" [fmt.Arg.str cfg.DBName]]
  let connStrs :=
    if len cfg.SSLMode > 0 then connStrs ++ [fmt.Sprintf "sslmode=%s" [fmt.Arg.str cfg.SSLMode]]
    else connStrs
  strings.Join connStrs " "

end cmd

/-! ## The validation engine -/

namespace vala

/-- Modelled from the spec: the validation engine (package `vala`) is not among
the sources.  A checker, once run, either passes or fails, and a failure names
the field (`paramName`) it was built for. -/
structure Checker where
  pass : Bool
  paramName : String
deriving DecidableEq, Repr

/-- Modelled from the spec: `vala.StringNotEmpty(obtained, paramName)` passes
exactly when `obtained` is not the empty string. -/
def StringNotEmpty (obtained paramName : String) : Checker :=
  ⟨decide (obtained ≠ ""), paramName⟩

/-- Modelled from the spec: `vala.Equals(param, value, paramName)` on two `int`
operands passes exactly when they are equal. -/
def Equals (param value : Int) (paramName : String) : Checker :=
  ⟨decide (param = value), paramName⟩

/-- Modelled from the spec: `vala.Not(checker)` passes exactly when `checker`
fails ("port not equal to zero"). -/
def Not (checker : Checker) : Checker :=
  ⟨!checker.pass, checker.paramName⟩

/-- Modelled from the spec: a `ValidationError`; `Errors` names the offending
fields, in the order in which they were checked (aggregation of all
violations). -/
structure Validation where
  Errors : List String
deriving DecidableEq, Repr

/-- Modelled from the spec: `vala.BeginValidation()`, no violation yet. -/
def BeginValidation : Validation := ⟨[]⟩

/-- Modelled from the spec: `Validate(checkers...)` runs every checker in
order and records the field of each one that fails. -/
def Validation.Validate (val : Validation) (checkers : List Checker) : Validation :=
  ⟨val.Errors ++ (checkers.filter (fun c => !c.pass)).map (fun c => c.paramName)⟩

/-- Modelled from the spec: `Check()` is nil when nothing was recorded and the
validation error otherwise. -/
def Validation.Check (val : Validation) : Option Validation :=
  if val.Errors = [] then none else some val

end vala

/-! ## Package `cmd`: the command pipeline -/

namespace cmd

/-- What `migrateExec` reads from outside the file: the result of
`cnf.CheckEnv()` (`none` for nil), the getters of the configuration store
`cnf.ModeViper`, `cnf.AppPath`, the library function `filepath.Join` on two
elements, and the run of an external command by `exec.Command(name, args...)`
with working directory `Dir` and `CombinedOutput()`: the captured combined
output and the error (`none` for nil, i.e. exit status 0). -/
structure Env where
  CheckEnv : Option String
  GetString : String → String
  GetInt : String → Int
  AppPath : String
  filepathJoin : String → String → String
  CombinedOutput : String → List String → String → String × Option String

/-- Calls and effects of one run, in program order. -/
inductive Event where
  /-- `cnf.ModeViper.Set(key, value)` with a string. -/
  | SetString (key : String) (value : String)
  /-- `cnf.ModeViper.Set(key, value)` with an int. -/
  | SetInt (key : String) (value : Int)
  /-- Call of `postgresConnStr` on the given config. -/
  | postgresConnStr (cfg : migrateConfig)
  /-- Call of `mysqlConnStr` on the given config. -/
  | mysqlConnStr (cfg : migrateConfig)
  /-- The validation of the given config (migrate.go 125-132). -/
  | Validate (cfg : migrateConfig)
  /-- Launch of an external command with arguments and working directory. -/
  | CombinedOutput (name : String) (args : List String) (dir : String)
  /-- `fmt.Print(s)`. -/
  | Print (s : String)
  /-- `fmt.Println(err)`. -/
  | Println (err : String)
  /-- `os.Exit(code)`. -/
  | Exit (code : Int)
deriving DecidableEq, Repr

/-- Go `error` values that `migrateExec` returns. -/
inductive Error where
  | env (msg : String)
  | validation (val : vala.Validation)
deriving DecidableEq, Repr

/-- How a run of `migrateExec` ends: it returns to its caller (`none` is nil),
or the host process is terminated by `os.Exit`. -/
inductive Outcome where
  | returned (err : Option Error)
  | exited (code : Int)
deriving DecidableEq, Repr

/-- Program state: the package variable `migrateCmdConfig`, the local
`connStr`, and the events so far. -/
structure St where
  migrateCmdConfig : migrateConfig
  connStr : String
  trace : List Event
deriving DecidableEq, Repr

/-- Record an event. -/
def St.emit (s : St) (e : Event) : St := { s with trace := s.trace ++ [e] }

/-- Source migrate.go 92-98: the seven fields read from the store. -/
def readConfig (env : Env) : migrateConfig :=
  { DB := env.GetString "db"
    DBName := env.GetString "dbname"
    User := env.GetString "user"
    Pass := env.GetString "pass"
    Host := env.GetString "host"
    Port := env.GetInt "port"
    SSLMode := env.GetString "sslmode" }

/-- Source migrate.go 100-123: the dialect branch, which fills the defaults,
writes them back to the store and renders the connection string. -/
def dialectStep (s : St) : St :=
  let s : St := { s with connStr := "" }
  if s.migrateCmdConfig.DB = "postgres" then
    let s : St :=
      if s.migrateCmdConfig.SSLMode = "" then
        let s : St := { s with migrateCmdConfig := { s.migrateCmdConfig with SSLMode := "require" } }
        s.emit (Event.SetString "sslmode" s.migrateCmdConfig.SSLMode)
      else s
    let s : St :=
      if s.migrateCmdConfig.Port = 0 then
        let s : St := { s with migrateCmdConfig := { s.migrateCmdConfig with Port := 5432 } }
        s.emit (Event.SetInt "port" s.migrateCmdConfig.Port)
      else s
    let s : St := s.emit (Event.postgresConnStr s.migrateCmdConfig)
    { s with connStr := postgresConnStr s.migrateCmdConfig }
  else if s.migrateCmdConfig.DB = "mysql" then
    let s : St :=
      if s.migrateCmdConfig.SSLMode = "" then
        let s : St := { s with migrateCmdConfig := { s.migrateCmdConfig with SSLMode := "true" } }
        s.emit (Event.SetString "sslmode" s.migrateCmdConfig.SSLMode)
      else s
    let s : St :=
      if s.migrateCmdConfig.Port = 0 then
        let s : St := { s with migrateCmdConfig := { s.migrateCmdConfig with Port := 3306 } }
        s.emit (Event.SetInt "port" s.migrateCmdConfig.Port)
      else s
    let s : St := s.emit (Event.mysqlConnStr s.migrateCmdConfig)
    { s with connStr := mysqlConnStr s.migrateCmdConfig }
  else s

/-- Source migrate.go 125-132: the six checks, in source order. -/
def validate (c : migrateConfig) : Option vala.Validation :=
  (vala.BeginValidation.Validate [
    vala.StringNotEmpty c.DB "db",
    vala.StringNotEmpty c.User "user",
    vala.StringNotEmpty c.Host "host",
    vala.Not (vala.Equals c.Port 0 "port"),
    vala.StringNotEmpty c.DBName "dbname",
    vala.StringNotEmpty c.SSLMode "sslmode"]).Check

/-- Source `migrateExec` (migrate.go 84-159), run with `migrateCmdConfig = g`
on entry.  `checkDep("goose")` returns no value and is defined in another
file; the run is followed from the point where it has returned.  The `cmd`
parameter is not read by the body and is left out; `args` is kept. -/
def migrateExec (env : Env) (g : migrateConfig) (_args : List String) (subCmd : String) :
    Outcome × St :=
  let s : St := ⟨g, "", []⟩
  match env.CheckEnv with
  | some err => (Outcome.returned (some (Error.env err)), s)
  | none =>
    let s : St := { s with migrateCmdConfig := readConfig env }
    let s : St := dialectStep s
    let s : St := s.emit (Event.Validate s.migrateCmdConfig)
    match validate s.migrateCmdConfig with
    | some err => (Outcome.returned (some (Error.validation err)), s)
    | none =>
      let excArgs := [s.migrateCmdConfig.DB, s.connStr, subCmd]
      let dir := env.filepathJoin env.AppPath "migrations"
      let res := env.CombinedOutput "goose" excArgs dir
      let s : St := s.emit (Event.CombinedOutput "goose" excArgs dir)
      let s : St := s.emit (Event.Print res.1)
      match res.2 with
      | some err => (Outcome.exited 1, (s.emit (Event.Println err)).emit (Event.Exit 1))
      | none => (Outcome.returned none, s)

/-- Source `upCmd.RunE` (migrate.go 31-33). -/
def upCmd (env : Env) (g : migrateConfig) (args : List String) : Outcome × St :=
  migrateExec env g args "up"

/-- Source `downCmd.RunE` (migrate.go 39-41). -/
def downCmd (env : Env) (g : migrateConfig) (args : List String) : Outcome × St :=
  migrateExec env g args "down"

/-- Source `redoCmd.RunE` (migrate.go 47-49). -/
def redoCmd (env : Env) (g : migrateConfig) (args : List String) : Outcome × St :=
  migrateExec env g args "redo"

/-- Source `statusCmd.RunE` (migrate.go 55-57). -/
def statusCmd (env : Env) (g : migrateConfig) (args : List String) : Outcome × St :=
  migrateExec env g args "status"

/-- Source `dbVersionCmd.RunE` (migrate.go 63-65). -/
def dbVersionCmd (env : Env) (g : migrateConfig) (args : List String) : Outcome × St :=
  migrateExec env g args "version"

/-! ## Observations on a trace -/

/-- The event is the launch of an external command. -/
def Event.isLaunch : Event → Bool
  | Event.CombinedOutput _ _ _ => true
  | _ => false

/-- The event is a call of one of the two renderers. -/
def Event.isRender : Event → Bool
  | Event.postgresConnStr _ => true
  | Event.mysqlConnStr _ => true
  | _ => false

/-- The event writes to standard output. -/
def Event.isPrint : Event → Bool
  | Event.Print _ => true
  | Event.Println _ => true
  | _ => false

/-- The event terminates the host process. -/
def Event.isExit : Event → Bool
  | Event.Exit _ => true
  | _ => false

/-- The event writes a default back to the configuration store. -/
def Event.isSet : Event → Bool
  | Event.SetString _ _ => true
  | Event.SetInt _ _ => true
  | _ => false

/-- Standard output produced by a trace: `Print` writes its operand,
`Println` its operand and a newline. -/
def stdout : List Event → String
  | [] => ""
  | Event.Print s :: es => s ++ stdout es
  | Event.Println s :: es => s ++ "\n" ++ stdout es
  | _ :: es => stdout es

/-- Every renderer call in the trace comes after a validation: scanning from
the start, a `Validate` event is met before any renderer call. -/
def validatedBeforeRender : List Event → Bool
  | [] => true
  | Event.Validate _ :: _ => true
  | Event.postgresConnStr _ :: _ => false
  | Event.mysqlConnStr _ :: _ => false
  | _ :: es => validatedBeforeRender es

/-- The config held by `migrateCmdConfig` after the defaulting of a run
(migrate.go 92-123). -/
def defaulted (env : Env) : migrateConfig :=
  (dialectStep ⟨readConfig env, "", []⟩).migrateCmdConfig

/-- The connection string held by `connStr` when validation starts. -/
def rendered (env : Env) : String :=
  (dialectStep ⟨readConfig env, "", []⟩).connStr

/-- The events of a run up to the start of validation. -/
def dialectTrace (env : Env) : List Event :=
  (dialectStep ⟨readConfig env, "", []⟩).trace

/-- The working directory given to the external engine (migrate.go 145). -/
def migrationsDir (env : Env) : String :=
  env.filepathJoin env.AppPath "migrations"

/-- A store and environment for examples: the given config in the store, no
environment error, project root `/app`, paths joined with a slash, and an
engine that prints `out` and ends with `err`. -/
def sampleEnv (c : migrateConfig) (out : String) (err : Option String) : Env :=
  { CheckEnv := none
    GetString := fun k =>
      if k = "db" then c.DB else if k = "dbname" then c.DBName else if k = "user" then c.User
      else if k = "pass" then c.Pass else if k = "host" then c.Host
      else if k = "sslmode" then c.SSLMode else ""
    GetInt := fun k => if k = "port" then c.Port else 0
    AppPath := "/app"
    filepathJoin := fun a b => a ++ "/" ++ b
    CombinedOutput := fun _ _ _ => (out, err) }

end cmd

/-! ## Lemmas on the library model -/

theorem len_pos_iff (s : String) : 0 < len s ↔ s ≠ "" := by
  cases s with
  | mk cs =>
    cases cs with
    | nil => simp [len, String.utf8ByteSize, String.utf8ByteSize.go]
    | cons c cs =>
      have := Char.utf8Size_pos c
      simp [len, String.utf8ByteSize, String.utf8ByteSize.go, String.ext_iff]
      omega

theorem sprintf_user (u : String) : fmt.Sprintf "user=%s" [fmt.Arg.str u] = "user=" ++ u := by
  have h : ("user=%s" : String).data = ['u', 's', 'e', 'r', '=', '%', 's'] := rfl
  simp +decide [fmt.Sprintf, h, fmt.sprintfAux, fmt.verb, String.ext_iff]

theorem sprintf_password (x : String) :
    fmt.Sprintf "password=%s" [fmt.Arg.str x] = "password=" ++ x := by
  have h : ("password=%s" : String).data
      = ['p', 'a', 's', 's', 'w', 'o', 'r', 'd', '=', '%', 's'] := rfl
  simp +decide [fmt.Sprintf, h, fmt.sprintfAux, fmt.verb, String.ext_iff]

theorem sprintf_host (x : String) : fmt.Sprintf "host=%s" [fmt.Arg.str x] = "host=" ++ x := by
  have h : ("host=%s" : String).data = ['h', 'o', 's', 't', '=', '%', 's'] := rfl
  simp +decide [fmt.Sprintf, h, fmt.sprintfAux, fmt.verb, String.ext_iff]

theorem sprintf_port (n : Int) :
    fmt.Sprintf "port=%d" [fmt.Arg.int n] = "port=" ++ strconv.Itoa n := by
  have h : ("port=%d" : String).data = ['p', 'o', 'r', 't', '=', '%', 'd'] := rfl
  simp +decide [fmt.Sprintf, h, fmt.sprintfAux, fmt.verb, String.ext_iff]

theorem sprintf_dbname (x : String) :
    fmt.Sprintf "dbname=%s" [fmt.Arg.str x] = "dbname=" ++ x := by
  have h : ("dbname=%s" : String).data = ['d', 'b', 'n', 'a', 'm', 'e', '=', '%', 's'] := rfl
  simp +decide [fmt.Sprintf, h, fmt.sprintfAux, fmt.verb, String.ext_iff]

theorem sprintf_sslmode (x : String) :
    fmt.Sprintf "sslmode=%s" [fmt.Arg.str x] = "sslmode=" ++ x := by
  have h : ("sslmode=%s" : String).data
      = ['s', 's', 'l', 'm', 'o', 'd', 'e', '=', '%', 's'] := rfl
  simp +decide [fmt.Sprintf, h, fmt.sprintfAux, fmt.verb, String.ext_iff]

theorem sprintf_tcp (host : String) (port : Int) (dbname : String) :
    fmt.Sprintf "@tcp(%s:%d)/%s" [fmt.Arg.str host, fmt.Arg.int port, fmt.Arg.str dbname]
      = "@tcp(" ++ host ++ ":" ++ strconv.Itoa port ++ ")/" ++ dbname := by
  have h : ("@tcp(%s:%d)/%s" : String).data
      = ['@', 't', 'c', 'p', '(', '%', 's', ':', '%', 'd', ')', '/', '%', 's'] := rfl
  simp +decide [fmt.Sprintf, h, fmt.sprintfAux, fmt.verb, String.ext_iff]

/-- C1: `mysqlConnStr` returns exactly `User`, then `:Pass` iff `Pass` is
non-empty, then `@tcp(Host:Port)/DBName` with `Port` in decimal, then
`?tls=SSLMode` iff `SSLMode` is non-empty, and nothing else; on the two
sample configs of the specification it returns the two sample strings. -/
theorem mysqlConnStr_exact (cfg : cmd.migrateConfig) :
    cmd.mysqlConnStr cfg
        = cfg.User ++ (if cfg.Pass ≠ "" then ":" ++ cfg.Pass else "")
          ++ "@tcp(" ++ cfg.Host ++ ":" ++ strconv.Itoa cfg.Port ++ ")/" ++ cfg.DBName
          ++ (if cfg.SSLMode ≠ "" then "?tls=" ++ cfg.SSLMode else "")
    ∧ (∀ db : String, cmd.mysqlConnStr (cmd.migrateConfig.mk db "d" "bob" "" "h" 3306 "true")
        = "bob@tcp(h:3306)/d?tls=true")
    ∧ (∀ db : String, cmd.mysqlConnStr (cmd.migrateConfig.mk db "d" "bob" "secret" "h" 3306 "")
        = "bob:secret@tcp(h:3306)/d") := by
  refine ⟨?_, fun _ => rfl, fun _ => rfl⟩
  by_cases hp : cfg.Pass = "" <;> by_cases hs : cfg.SSLMode = "" <;>
    simp [cmd.mysqlConnStr, len_pos_iff, hp, hs, sprintf_tcp, bytes.Buffer.zero,
      bytes.Buffer.WriteString, bytes.Buffer.WriteByte, bytes.Buffer.contents, String.ext_iff]

/-- C2: `postgresConnStr` returns the tokens `user=`, `password=` (iff `Pass`
is non-empty), `host=`, `port=` (decimal), `dbname=`, `sslmode=` (iff
`SSLMode` is non-empty) in this order, each two neighbours separated by one
space, the values copied unchanged, nothing before the first token or after
the last; on the sample config it returns the sample string. -/
theorem postgresConnStr_exact (cfg : cmd.migrateConfig) :
    cmd.postgresConnStr cfg
        = strings.Join
            (["user=" ++ cfg.User]
              ++ (if cfg.Pass ≠ "" then ["password=" ++ cfg.Pass] else [])
              ++ ["host=" ++ cfg.Host, "port=" ++ strconv.Itoa cfg.Port, "dbname=" ++ cfg.DBName]
              ++ (if cfg.SSLMode ≠ "" then ["sslmode=" ++ cfg.SSLMode] else [])) " "
    ∧ cmd.postgresConnStr cfg
        = "user=" ++ cfg.User ++ (if cfg.Pass ≠ "" then " password=" ++ cfg.Pass else "")
          ++ " host=" ++ cfg.Host ++ " port=" ++ strconv.Itoa cfg.Port
          ++ " dbname=" ++ cfg.DBName
          ++ (if cfg.SSLMode ≠ "" then " sslmode=" ++ cfg.SSLMode else "")
    ∧ (∀ db : String,
        cmd.postgresConnStr (cmd.migrateConfig.mk db "d" "bob" "" "h" 5432 "verify-full")
          = "user=bob host=h port=5432 dbname=d sslmode=verify-full") := by
  refine ⟨?_, ?_, fun _ => rfl⟩
  · by_cases hp : cfg.Pass = "" <;> by_cases hs : cfg.SSLMode = "" <;>
      simp [cmd.postgresConnStr, len_pos_iff, hp, hs, sprintf_user, sprintf_password,
        sprintf_host, sprintf_port, sprintf_dbname, sprintf_sslmode]
  · by_cases hp : cfg.Pass = "" <;> by_cases hs : cfg.SSLMode = "" <;>
      simp [cmd.postgresConnStr, len_pos_iff, hp, hs, sprintf_user, sprintf_password,
        sprintf_host, sprintf_port, sprintf_dbname, sprintf_sslmode, strings.Join,
        String.ext_iff]

/-! ## Lemmas on the pipeline -/

namespace cmd

theorem dialectStep_config (c : migrateConfig) (x : String) (t : List Event) :
    (dialectStep ⟨c, x, t⟩).migrateCmdConfig
      = migrateConfig.mk c.DB c.DBName c.User c.Pass c.Host
          (if c.DB = "postgres" then (if c.Port = 0 then 5432 else c.Port)
            else if c.DB = "mysql" then (if c.Port = 0 then 3306 else c.Port) else c.Port)
          (if c.DB = "postgres" then (if c.SSLMode = "" then "require" else c.SSLMode)
            else if c.DB = "mysql" then (if c.SSLMode = "" then "true" else c.SSLMode)
            else c.SSLMode) := by
  obtain ⟨db, dbname, user, pass, host, port, sslmode⟩ := c
  by_cases h1 : db = "postgres" <;> by_cases h2 : db = "mysql" <;>
    by_cases h3 : sslmode = "" <;> by_cases h4 : port = 0 <;>
    simp [dialectStep, St.emit, h1, h2, h3, h4]

theorem dialectStep_connStr (c : migrateConfig) (x : String) (t : List Event) :
    (dialectStep ⟨c, x, t⟩).connStr
      = if c.DB = "postgres" then postgresConnStr (dialectStep ⟨c, x, t⟩).migrateCmdConfig
        else if c.DB = "mysql" then mysqlConnStr (dialectStep ⟨c, x, t⟩).migrateCmdConfig
        else "" := by
  by_cases h1 : c.DB = "postgres" <;> by_cases h2 : c.DB = "mysql" <;>
    by_cases h3 : c.SSLMode = "" <;> by_cases h4 : c.Port = 0 <;>
    simp [dialectStep, St.emit, h1, h2, h3, h4]

theorem dialectStep_trace (c : migrateConfig) (x : String) (t : List Event) :
    ∃ sets : List Event, (∀ e ∈ sets, e.isSet = true) ∧
      (dialectStep ⟨c, x, t⟩).trace
        = t ++ sets ++
          (if c.DB = "postgres" then [Event.postgresConnStr (dialectStep ⟨c, x, t⟩).migrateCmdConfig]
            else if c.DB = "mysql" then [Event.mysqlConnStr (dialectStep ⟨c, x, t⟩).migrateCmdConfig]
            else []) := by
  by_cases h1 : c.DB = "postgres"
  · by_cases h3 : c.SSLMode = "" <;> by_cases h4 : c.Port = 0
    · exact ⟨[Event.SetString "sslmode" "require", Event.SetInt "port" 5432],
        by simp [Event.isSet], by simp [dialectStep, St.emit, h1, h3, h4]⟩
    · exact ⟨[Event.SetString "sslmode" "require"],
        by simp [Event.isSet], by simp [dialectStep, St.emit, h1, h3, h4]⟩
    · exact ⟨[Event.SetInt "port" 5432],
        by simp [Event.isSet], by simp [dialectStep, St.emit, h1, h3, h4]⟩
    · exact ⟨[], by simp, by simp [dialectStep, St.emit, h1, h3, h4]⟩
  · by_cases h2 : c.DB = "mysql"
    · by_cases h3 : c.SSLMode = "" <;> by_cases h4 : c.Port = 0
      · exact ⟨[Event.SetString "sslmode" "true", Event.SetInt "port" 3306],
          by simp [Event.isSet], by simp [dialectStep, St.emit, h1, h2, h3, h4]⟩
      · exact ⟨[Event.SetString "sslmode" "true"],
          by simp [Event.isSet], by simp [dialectStep, St.emit, h1, h2, h3, h4]⟩
      · exact ⟨[Event.SetInt "port" 3306],
          by simp [Event.isSet], by simp [dialectStep, St.emit, h1, h2, h3, h4]⟩
      · exact ⟨[], by simp, by simp [dialectStep, St.emit, h1, h2, h3, h4]⟩
    · exact ⟨[], by simp, by simp [dialectStep, h1, h2]⟩

/-- The fields recorded by the six checks on `c`, in source order. -/
theorem validate_eq (c : migrateConfig) :
    validate c
      = if c.DB ≠ "" ∧ c.User ≠ "" ∧ c.Host ≠ "" ∧ c.Port ≠ 0 ∧ c.DBName ≠ "" ∧ c.SSLMode ≠ ""
        then none
        else some ⟨(if c.DB = "" then ["db"] else []) ++ (if c.User = "" then ["user"] else [])
          ++ (if c.Host = "" then ["host"] else []) ++ (if c.Port = 0 then ["port"] else [])
          ++ (if c.DBName = "" then ["dbname"] else [])
          ++ (if c.SSLMode = "" then ["sslmode"] else [])⟩ := by
  by_cases h1 : c.DB = "" <;> by_cases h2 : c.User = "" <;> by_cases h3 : c.Host = "" <;>
    by_cases h4 : c.Port = 0 <;> by_cases h5 : c.DBName = "" <;> by_cases h6 : c.SSLMode = "" <;>
    simp [validate, vala.Validation.Check, vala.Validation.Validate, vala.BeginValidation,
      vala.StringNotEmpty, vala.Not, vala.Equals, h1, h2, h3, h4, h5, h6]

theorem validate_none_iff (c : migrateConfig) :
    validate c = none
      ↔ c.DB ≠ "" ∧ c.User ≠ "" ∧ c.Host ≠ "" ∧ c.Port ≠ 0 ∧ c.DBName ≠ "" ∧ c.SSLMode ≠ "" := by
  rw [validate_eq]
  split <;> simp_all

/-- A run that passes `CheckEnv`, spelled out along its three endings. -/
theorem migrateExec_run (env : Env) (g : migrateConfig) (args : List String) (subCmd : String)
    (h : env.CheckEnv = none) :
    migrateExec env g args subCmd
      = match validate (defaulted env) with
        | some v =>
          (Outcome.returned (some (Error.validation v)),
            ⟨defaulted env, rendered env, dialectTrace env ++ [Event.Validate (defaulted env)]⟩)
        | none =>
          match (env.CombinedOutput "goose" [(defaulted env).DB, rendered env, subCmd]
              (migrationsDir env)).2 with
          | some err =>
            (Outcome.exited 1,
              ⟨defaulted env, rendered env,
                dialectTrace env ++ [Event.Validate (defaulted env),
                  Event.CombinedOutput "goose" [(defaulted env).DB, rendered env, subCmd]
                    (migrationsDir env),
                  Event.Print (env.CombinedOutput "goose"
                    [(defaulted env).DB, rendered env, subCmd] (migrationsDir env)).1,
                  Event.Println err, Event.Exit 1]⟩)
          | none =>
            (Outcome.returned none,
              ⟨defaulted env, rendered env,
                dialectTrace env ++ [Event.Validate (defaulted env),
                  Event.CombinedOutput "goose" [(defaulted env).DB, rendered env, subCmd]
                    (migrationsDir env),
                  Event.Print (env.CombinedOutput "goose"
                    [(defaulted env).DB, rendered env, subCmd] (migrationsDir env)).1]⟩) := by
  simp only [migrateExec, h, defaulted, rendered, dialectTrace, migrationsDir, St.emit]
  split
  · rfl
  · split <;> simp

theorem dialectTrace_sets_render (env : Env) :
    ∃ sets : List Event, (∀ e ∈ sets, e.isSet = true) ∧
      dialectTrace env
        = sets ++
          (if (readConfig env).DB = "postgres" then [Event.postgresConnStr (defaulted env)]
            else if (readConfig env).DB = "mysql" then [Event.mysqlConnStr (defaulted env)]
            else []) := by
  obtain ⟨sets, hs, ht⟩ := dialectStep_trace (readConfig env) "" []
  exact ⟨sets, hs, by simpa [dialectTrace, defaulted] using ht⟩

theorem dialectTrace_filter (env : Env) (p : Event → Bool)
    (hset : ∀ e, e.isSet = true → p e = false) (hrender : ∀ e, e.isRender = true → p e = false) :
    (dialectTrace env).filter p = [] := by
  obtain ⟨sets, hs, ht⟩ := dialectTrace_sets_render env
  rw [ht, List.filter_append, List.append_eq_nil]
  constructor
  · rw [List.filter_eq_nil_iff]
    intro e he
    simp [hset e (hs e he)]
  · split
    · simp [hrender _ (show (Event.postgresConnStr (defaulted env)).isRender = true from rfl)]
    · split
      · simp [hrender _ (show (Event.mysqlConnStr (defaulted env)).isRender = true from rfl)]
      · simp

theorem defaulted_eq (env : Env) :
    defaulted env
      = migrateConfig.mk (readConfig env).DB (readConfig env).DBName (readConfig env).User
          (readConfig env).Pass (readConfig env).Host
          (if (readConfig env).DB = "postgres" then
              (if (readConfig env).Port = 0 then 5432 else (readConfig env).Port)
            else if (readConfig env).DB = "mysql" then
              (if (readConfig env).Port = 0 then 3306 else (readConfig env).Port)
            else (readConfig env).Port)
          (if (readConfig env).DB = "postgres" then
              (if (readConfig env).SSLMode = "" then "require" else (readConfig env).SSLMode)
            else if (readConfig env).DB = "mysql" then
              (if (readConfig env).SSLMode = "" then "true" else (readConfig env).SSLMode)
            else (readConfig env).SSLMode) :=
  dialectStep_config (readConfig env) "" []

theorem migrateExec_config (env : Env) (g : migrateConfig) (args : List String)
    (subCmd : String) (h : env.CheckEnv = none) :
    (migrateExec env g args subCmd).2.migrateCmdConfig = defaulted env := by
  rw [migrateExec_run env g args subCmd h]
  split
  · rfl
  · split <;> rfl

theorem migrateExec_invalid (env : Env) (g : migrateConfig) (args : List String)
    (subCmd : String) (h : env.CheckEnv = none) (v : vala.Validation)
    (hv : validate (defaulted env) = some v) :
    migrateExec env g args subCmd
      = (Outcome.returned (some (Error.validation v)),
          ⟨defaulted env, rendered env, dialectTrace env ++ [Event.Validate (defaulted env)]⟩) := by
  rw [migrateExec_run env g args subCmd h, hv]

theorem migrateExec_engine_error (env : Env) (g : migrateConfig) (args : List String)
    (subCmd : String) (h : env.CheckEnv = none) (hv : validate (defaulted env) = none)
    (err : String)
    (he : (env.CombinedOutput "goose" [(defaulted env).DB, rendered env, subCmd]
      (migrationsDir env)).2 = some err) :
    migrateExec env g args subCmd
      = (Outcome.exited 1,
          ⟨defaulted env, rendered env,
            dialectTrace env ++ [Event.Validate (defaulted env),
              Event.CombinedOutput "goose" [(defaulted env).DB, rendered env, subCmd]
                (migrationsDir env),
              Event.Print (env.CombinedOutput "goose"
                [(defaulted env).DB, rendered env, subCmd] (migrationsDir env)).1,
              Event.Println err, Event.Exit 1]⟩) := by
  rw [migrateExec_run env g args subCmd h, hv]
  simp only [he]

theorem migrateExec_engine_ok (env : Env) (g : migrateConfig) (args : List String)
    (subCmd : String) (h : env.CheckEnv = none) (hv : validate (defaulted env) = none)
    (he : (env.CombinedOutput "goose" [(defaulted env).DB, rendered env, subCmd]
      (migrationsDir env)).2 = none) :
    migrateExec env g args subCmd
      = (Outcome.returned none,
          ⟨defaulted env, rendered env,
            dialectTrace env ++ [Event.Validate (defaulted env),
              Event.CombinedOutput "goose" [(defaulted env).DB, rendered env, subCmd]
                (migrationsDir env),
              Event.Print (env.CombinedOutput "goose"
                [(defaulted env).DB, rendered env, subCmd] (migrationsDir env)).1]⟩) := by
  rw [migrateExec_run env g args subCmd h, hv]
  simp only [he]

/-- With a passing validation the run never returns a validation error. -/
theorem migrateExec_valid_outcome (env : Env) (g : migrateConfig) (args : List String)
    (subCmd : String) (h : env.CheckEnv = none) (hv : validate (defaulted env) = none)
    (v : vala.Validation) :
    (migrateExec env g args subCmd).1 ≠ Outcome.returned (some (Error.validation v)) := by
  cases he : (env.CombinedOutput "goose" [(defaulted env).DB, rendered env, subCmd]
      (migrationsDir env)).2 with
  | some err => rw [migrateExec_engine_error env g args subCmd h hv err he]; simp
  | none => rw [migrateExec_engine_ok env g args subCmd h hv he]; simp

theorem not_launch_of_set (e : Event) (h : e.isSet = true) :
    (e.isLaunch || e.isPrint || e.isExit) = false := by
  cases e <;> simp_all [Event.isSet, Event.isLaunch, Event.isPrint, Event.isExit]

theorem not_launch_of_render (e : Event) (h : e.isRender = true) :
    (e.isLaunch || e.isPrint || e.isExit) = false := by
  cases e <;> simp_all [Event.isRender, Event.isLaunch, Event.isPrint, Event.isExit]

end cmd

/-! ## Defaulting and validation -/

namespace cmd

/-- C3: in a run of `migrateExec` that reaches the defaulting, the config left
in `migrateCmdConfig` has `Port` equal to the dialect default (5432 for
postgres, 3306 for mysql) if the port read was 0 and to the port read
otherwise, `SSLMode` equal to the dialect default ("require", "true") if the
sslmode read was empty and to the sslmode read otherwise, and `DB`, `User`,
`Pass`, `Host`, `DBName` as read; for any other dialect the whole config is
as read. -/
theorem migrateExec_defaulting (env : Env) (g : migrateConfig) (args : List String)
    (subCmd : String) (h : env.CheckEnv = none) :
    ((readConfig env).DB = "postgres" →
        (migrateExec env g args subCmd).2.migrateCmdConfig.Port
            = (if (readConfig env).Port = 0 then 5432 else (readConfig env).Port)
        ∧ (migrateExec env g args subCmd).2.migrateCmdConfig.SSLMode
            = (if (readConfig env).SSLMode = "" then "require" else (readConfig env).SSLMode))
    ∧ ((readConfig env).DB = "mysql" →
        (migrateExec env g args subCmd).2.migrateCmdConfig.Port
            = (if (readConfig env).Port = 0 then 3306 else (readConfig env).Port)
        ∧ (migrateExec env g args subCmd).2.migrateCmdConfig.SSLMode
            = (if (readConfig env).SSLMode = "" then "true" else (readConfig env).SSLMode))
    ∧ (migrateExec env g args subCmd).2.migrateCmdConfig.DB = (readConfig env).DB
    ∧ (migrateExec env g args subCmd).2.migrateCmdConfig.User = (readConfig env).User
    ∧ (migrateExec env g args subCmd).2.migrateCmdConfig.Pass = (readConfig env).Pass
    ∧ (migrateExec env g args subCmd).2.migrateCmdConfig.Host = (readConfig env).Host
    ∧ (migrateExec env g args subCmd).2.migrateCmdConfig.DBName = (readConfig env).DBName
    ∧ ((readConfig env).DB ≠ "postgres" → (readConfig env).DB ≠ "mysql" →
        (migrateExec env g args subCmd).2.migrateCmdConfig = readConfig env) := by
  rw [migrateExec_config env g args subCmd h, defaulted_eq]
  refine ⟨fun hp => by simp [hp], fun hm => by simp [hm], rfl, rfl, rfl, rfl, rfl, ?_⟩
  intro h1 h2
  simp [h1, h2]

/-- Witness for C3: a postgres config with port 0 and empty sslmode. -/
theorem migrateExec_defaulting_witness :
    (sampleEnv (migrateConfig.mk "postgres" "d" "bob" "" "h" 0 "") "" none).CheckEnv = none
    ∧ (migrateExec (sampleEnv (migrateConfig.mk "postgres" "d" "bob" "" "h" 0 "") "" none)
          (migrateConfig.mk "" "" "" "" "" 0 "") [] "up").2.migrateCmdConfig.Port = 5432
    ∧ (migrateExec (sampleEnv (migrateConfig.mk "postgres" "d" "bob" "" "h" 0 "") "" none)
          (migrateConfig.mk "" "" "" "" "" 0 "") [] "up").2.migrateCmdConfig.SSLMode
        = "require" :=
  ⟨rfl, (migrateExec_defaulting
    (sampleEnv (migrateConfig.mk "postgres" "d" "bob" "" "h" 0 "") "" none)
    (migrateConfig.mk "" "" "" "" "" 0 "") [] "up" rfl).1 rfl⟩

/-- C4: for every store content and every subcommand token (in particular
up, down, redo, status, version), a run of `migrateExec` that reaches the
validation returns a validation error to its caller exactly when, after
defaulting, `DB`, `User`, `Host`, `DBName` or `SSLMode` is empty or `Port`
is 0; such a run launches no external command and does not terminate the
process.  A config whose `DBName` is empty is always rejected, and the
error names `dbname`. -/
theorem migrateExec_validation_iff (env : Env) (g : migrateConfig) (args : List String)
    (subCmd : String) (h : env.CheckEnv = none) :
    ((∃ v, (migrateExec env g args subCmd).1 = Outcome.returned (some (Error.validation v)))
        ↔ ((defaulted env).DB = "" ∨ (defaulted env).User = "" ∨ (defaulted env).Host = ""
            ∨ (defaulted env).Port = 0 ∨ (defaulted env).DBName = ""
            ∨ (defaulted env).SSLMode = ""))
    ∧ ((∃ v, (migrateExec env g args subCmd).1 = Outcome.returned (some (Error.validation v)))
        → (migrateExec env g args subCmd).2.trace.filter
            (fun e => e.isLaunch || e.isPrint || e.isExit) = [])
    ∧ ((readConfig env).DBName = "" →
        ∃ v, (migrateExec env g args subCmd).1 = Outcome.returned (some (Error.validation v))
          ∧ "dbname" ∈ v.Errors) := by
  have hnone := validate_none_iff (defaulted env)
  refine ⟨?_, ?_, ?_⟩
  · cases hv : validate (defaulted env) with
    | some v =>
      have hfail : ¬ ((defaulted env).DB ≠ "" ∧ (defaulted env).User ≠ ""
          ∧ (defaulted env).Host ≠ "" ∧ (defaulted env).Port ≠ 0
          ∧ (defaulted env).DBName ≠ "" ∧ (defaulted env).SSLMode ≠ "") :=
        fun hall => by simpa [hv] using hnone.mpr hall
      constructor
      · intro _
        by_contra hcon
        simp only [not_or] at hcon
        exact hfail hcon
      · intro _
        exact ⟨v, by rw [migrateExec_invalid env g args subCmd h v hv]⟩
    | none =>
      have hall := hnone.mp hv
      constructor
      · rintro ⟨v, hv'⟩
        exact absurd hv' (migrateExec_valid_outcome env g args subCmd h hv v)
      · intro hor
        rcases hor with h1 | h1 | h1 | h1 | h1 | h1
        · exact absurd h1 hall.1
        · exact absurd h1 hall.2.1
        · exact absurd h1 hall.2.2.1
        · exact absurd h1 hall.2.2.2.1
        · exact absurd h1 hall.2.2.2.2.1
        · exact absurd h1 hall.2.2.2.2.2
  · rintro ⟨v, hv'⟩
    cases hv : validate (defaulted env) with
    | some w =>
      rw [migrateExec_invalid env g args subCmd h w hv]
      simp only [List.filter_append]
      rw [dialectTrace_filter env _ not_launch_of_set not_launch_of_render]
      simp [Event.isLaunch, Event.isPrint, Event.isExit]
    | none =>
      exact absurd hv' (migrateExec_valid_outcome env g args subCmd h hv v)
  · intro hdb
    have hd : (defaulted env).DBName = "" := by rw [defaulted_eq]; exact hdb
    have hv := validate_eq (defaulted env)
    rw [if_neg (by simp [hd])] at hv
    refine ⟨_, by rw [migrateExec_invalid env g args subCmd h _ hv], ?_⟩
    simp [hd]

/-- Witness for C4: a mysql config with an empty dbname, run with `status`. -/
theorem migrateExec_validation_iff_witness :
    (sampleEnv (migrateConfig.mk "mysql" "" "bob" "pw" "h" 3306 "true") "" none).CheckEnv = none
    ∧ ∃ v, (migrateExec (sampleEnv (migrateConfig.mk "mysql" "" "bob" "pw" "h" 3306 "true") "" none)
          (migrateConfig.mk "" "" "" "" "" 0 "") [] "status").1
            = Outcome.returned (some (Error.validation v))
        ∧ "dbname" ∈ v.Errors :=
  ⟨rfl, (migrateExec_validation_iff
    (sampleEnv (migrateConfig.mk "mysql" "" "bob" "pw" "h" 3306 "true") "" none)
    (migrateConfig.mk "" "" "" "" "" 0 "") [] "status" rfl).2.2 rfl⟩

end cmd

/-! ## Launch of the engine and its outcome -/

namespace cmd

theorem rendered_eq (env : Env) :
    rendered env
      = if (defaulted env).DB = "postgres" then postgresConnStr (defaulted env)
        else if (defaulted env).DB = "mysql" then mysqlConnStr (defaulted env)
        else "" := by
  have hdb : (defaulted env).DB = (readConfig env).DB := by rw [defaulted_eq]
  rw [hdb]
  exact dialectStep_connStr (readConfig env) "" []

theorem stdout_append (a b : List Event) : stdout (a ++ b) = stdout a ++ stdout b := by
  induction a with
  | nil => simp [stdout, String.ext_iff]
  | cons e es ih => cases e <;> simp [stdout, ih, String.ext_iff]

theorem stdout_silent (tr : List Event) (h : ∀ e ∈ tr, e.isPrint = false) : stdout tr = "" := by
  induction tr with
  | nil => rfl
  | cons e es ih =>
    have he := h e (List.mem_cons_self e es)
    have hes := ih (fun x hx => h x (List.mem_cons_of_mem e hx))
    cases e <;> simp_all [stdout, Event.isPrint]

theorem dialectTrace_silent (env : Env) : stdout (dialectTrace env) = "" := by
  apply stdout_silent
  intro e he
  have hf := dialectTrace_filter env Event.isPrint
    (by intro x hx; cases x <;> simp_all [Event.isSet, Event.isPrint])
    (by intro x hx; cases x <;> simp_all [Event.isRender, Event.isPrint])
  rw [List.filter_eq_nil_iff] at hf
  simpa using hf e he

theorem launch_filter (env : Env) (g : migrateConfig) (args : List String) (subCmd : String)
    (h : env.CheckEnv = none) (hv : validate (defaulted env) = none) :
    (migrateExec env g args subCmd).2.trace.filter Event.isLaunch
      = [Event.CombinedOutput "goose" [(defaulted env).DB, rendered env, subCmd]
          (migrationsDir env)] := by
  have hd := dialectTrace_filter env Event.isLaunch
    (by intro x hx; cases x <;> simp_all [Event.isSet, Event.isLaunch])
    (by intro x hx; cases x <;> simp_all [Event.isRender, Event.isLaunch])
  cases he : (env.CombinedOutput "goose" [(defaulted env).DB, rendered env, subCmd]
      (migrationsDir env)).2 with
  | some err =>
    rw [migrateExec_engine_error env g args subCmd h hv err he]
    rw [List.filter_append, hd]
    simp [Event.isLaunch, List.filter_cons]
  | none =>
    rw [migrateExec_engine_ok env g args subCmd h hv he]
    rw [List.filter_append, hd]
    simp [Event.isLaunch, List.filter_cons]

/-- C5: in a run whose defaulted config passes validation, `migrateExec`
launches exactly one external command, `goose`, with the argument list
`[DB, connStr, subCmd]`, where `connStr` is `postgresConnStr` resp.
`mysqlConnStr` of the defaulted config for the dialect of that name and
`subCmd` is the token as given, in the directory obtained by joining
`AppPath` and `migrations`; the five commands are `migrateExec` with the
tokens up, down, redo, status, version, so each launches the engine with its
own token in the third position. -/
theorem migrateExec_launches_engine (env : Env) (g : migrateConfig) (args : List String)
    (subCmd : String) (h : env.CheckEnv = none) (hv : validate (defaulted env) = none) :
    (migrateExec env g args subCmd).2.trace.filter Event.isLaunch
        = [Event.CombinedOutput "goose"
            [(defaulted env).DB,
              (if (defaulted env).DB = "postgres" then postgresConnStr (defaulted env)
                else if (defaulted env).DB = "mysql" then mysqlConnStr (defaulted env)
                else ""),
              subCmd]
            (env.filepathJoin env.AppPath "migrations")]
    ∧ upCmd env g args = migrateExec env g args "up"
    ∧ downCmd env g args = migrateExec env g args "down"
    ∧ redoCmd env g args = migrateExec env g args "redo"
    ∧ statusCmd env g args = migrateExec env g args "status"
    ∧ dbVersionCmd env g args = migrateExec env g args "version"
    ∧ (upCmd env g args).2.trace.filter Event.isLaunch
        = [Event.CombinedOutput "goose" [(defaulted env).DB, rendered env, "up"]
            (env.filepathJoin env.AppPath "migrations")]
    ∧ (downCmd env g args).2.trace.filter Event.isLaunch
        = [Event.CombinedOutput "goose" [(defaulted env).DB, rendered env, "down"]
            (env.filepathJoin env.AppPath "migrations")]
    ∧ (redoCmd env g args).2.trace.filter Event.isLaunch
        = [Event.CombinedOutput "goose" [(defaulted env).DB, rendered env, "redo"]
            (env.filepathJoin env.AppPath "migrations")]
    ∧ (statusCmd env g args).2.trace.filter Event.isLaunch
        = [Event.CombinedOutput "goose" [(defaulted env).DB, rendered env, "status"]
            (env.filepathJoin env.AppPath "migrations")]
    ∧ (dbVersionCmd env g args).2.trace.filter Event.isLaunch
        = [Event.CombinedOutput "goose" [(defaulted env).DB, rendered env, "version"]
            (env.filepathJoin env.AppPath "migrations")] := by
  refine ⟨?_, rfl, rfl, rfl, rfl, rfl, ?_, ?_, ?_, ?_, ?_⟩
  · rw [launch_filter env g args subCmd h hv, rendered_eq]
    rfl
  · exact launch_filter env g args "up" h hv
  · exact launch_filter env g args "down" h hv
  · exact launch_filter env g args "redo" h hv
  · exact launch_filter env g args "status" h hv
  · exact launch_filter env g args "version" h hv

/-- Witness for C5: a complete mysql config, run with `redo`. -/
theorem migrateExec_launches_engine_witness :
    (sampleEnv (migrateConfig.mk "mysql" "d" "bob" "" "h" 0 "") "ok" none).CheckEnv = none
    ∧ validate (defaulted (sampleEnv (migrateConfig.mk "mysql" "d" "bob" "" "h" 0 "") "ok" none))
        = none
    ∧ (migrateExec (sampleEnv (migrateConfig.mk "mysql" "d" "bob" "" "h" 0 "") "ok" none)
          (migrateConfig.mk "" "" "" "" "" 0 "") [] "redo").2.trace.filter Event.isLaunch
        = [Event.CombinedOutput "goose" ["mysql", "bob@tcp(h:3306)/d?tls=true", "redo"]
            "/app/migrations"] :=
  ⟨rfl, by decide, (migrateExec_launches_engine
    (sampleEnv (migrateConfig.mk "mysql" "d" "bob" "" "h" 0 "") "ok" none)
    (migrateConfig.mk "" "" "" "" "" 0 "") [] "redo" rfl (by decide)).1⟩

/-- C6: in a run whose defaulted config passes validation and whose engine
run ends with an error, `migrateExec` prints the captured combined output,
then prints the error, then calls `os.Exit(1)`: the run ends with the process
terminated with status 1, which is not 0, and returns nothing to its caller. -/
theorem migrateExec_engine_failure (env : Env) (g : migrateConfig) (args : List String)
    (subCmd : String) (h : env.CheckEnv = none) (hv : validate (defaulted env) = none)
    (out err : String)
    (hrun : env.CombinedOutput "goose" [(defaulted env).DB, rendered env, subCmd]
      (env.filepathJoin env.AppPath "migrations") = (out, some err)) :
    (migrateExec env g args subCmd).1 = Outcome.exited 1
    ∧ (1 : Int) ≠ 0
    ∧ (∀ r, (migrateExec env g args subCmd).1 ≠ Outcome.returned r)
    ∧ (migrateExec env g args subCmd).2.trace.filter (fun e => e.isPrint || e.isExit)
        = [Event.Print out, Event.Println err, Event.Exit 1]
    ∧ stdout (migrateExec env g args subCmd).2.trace = out ++ err ++ "\n"
    ∧ (migrateExec env g args subCmd).2.trace.getLast? = some (Event.Exit 1) := by
  have he : (env.CombinedOutput "goose" [(defaulted env).DB, rendered env, subCmd]
      (migrationsDir env)).2 = some err := by
    simp only [migrationsDir]; rw [hrun]
  have ho : (env.CombinedOutput "goose" [(defaulted env).DB, rendered env, subCmd]
      (migrationsDir env)).1 = out := by
    simp only [migrationsDir]; rw [hrun]
  have hd := dialectTrace_filter env (fun e => e.isPrint || e.isExit)
    (by intro x hx; cases x <;> simp_all [Event.isSet, Event.isPrint, Event.isExit])
    (by intro x hx; cases x <;> simp_all [Event.isRender, Event.isPrint, Event.isExit])
  rw [migrateExec_engine_error env g args subCmd h hv err he, ho]
  refine ⟨rfl, by decide, fun r => by simp, ?_, ?_, ?_⟩
  · rw [List.filter_append, hd]
    simp [Event.isPrint, Event.isExit, List.filter_cons]
  · simp [stdout_append, dialectTrace_silent, stdout, String.ext_iff]
  · simp [List.getLast?_append]

/-- Witness for C6: the engine prints a message and exits with status 1. -/
theorem migrateExec_engine_failure_witness :
    (sampleEnv (migrateConfig.mk "postgres" "d" "bob" "" "h" 0 "")
        "goose: no migrations" (some "exit status 1")).CheckEnv = none
    ∧ validate (defaulted (sampleEnv (migrateConfig.mk "postgres" "d" "bob" "" "h" 0 "")
        "goose: no migrations" (some "exit status 1"))) = none
    ∧ (migrateExec (sampleEnv (migrateConfig.mk "postgres" "d" "bob" "" "h" 0 "")
        "goose: no migrations" (some "exit status 1"))
      (migrateConfig.mk "" "" "" "" "" 0 "") [] "up").1 = Outcome.exited 1
    ∧ stdout (migrateExec (sampleEnv (migrateConfig.mk "postgres" "d" "bob" "" "h" 0 "")
        "goose: no migrations" (some "exit status 1"))
      (migrateConfig.mk "" "" "" "" "" 0 "") [] "up").2.trace
        = "goose: no migrations" ++ "exit status 1" ++ "\n" :=
  have key := migrateExec_engine_failure
    (sampleEnv (migrateConfig.mk "postgres" "d" "bob" "" "h" 0 "")
      "goose: no migrations" (some "exit status 1"))
    (migrateConfig.mk "" "" "" "" "" 0 "") [] "up" rfl (by decide)
    "goose: no migrations" "exit status 1" rfl
  ⟨rfl, by decide, key.1, key.2.2.2.2.1⟩

/-- C7: in a run whose defaulted config passes validation, the first thing
printed is the captured combined output, unchanged, whatever the engine run
ended with; and if the engine run ended without error (exit status 0), this
is the only thing printed, the process is not terminated, and `migrateExec`
returns nil. -/
theorem migrateExec_engine_success (env : Env) (g : migrateConfig) (args : List String)
    (subCmd : String) (h : env.CheckEnv = none) (hv : validate (defaulted env) = none) :
    ((migrateExec env g args subCmd).2.trace.filter Event.isPrint).head?
        = some (Event.Print (env.CombinedOutput "goose"
            [(defaulted env).DB, rendered env, subCmd]
            (env.filepathJoin env.AppPath "migrations")).1)
    ∧ ((env.CombinedOutput "goose" [(defaulted env).DB, rendered env, subCmd]
          (env.filepathJoin env.AppPath "migrations")).2 = none →
        (migrateExec env g args subCmd).1 = Outcome.returned none
        ∧ (migrateExec env g args subCmd).2.trace.filter (fun e => e.isPrint || e.isExit)
            = [Event.Print (env.CombinedOutput "goose"
                [(defaulted env).DB, rendered env, subCmd]
                (env.filepathJoin env.AppPath "migrations")).1]
        ∧ stdout (migrateExec env g args subCmd).2.trace
            = (env.CombinedOutput "goose" [(defaulted env).DB, rendered env, subCmd]
                (env.filepathJoin env.AppPath "migrations")).1) := by
  have hp := dialectTrace_filter env Event.isPrint
    (by intro x hx; cases x <;> simp_all [Event.isSet, Event.isPrint])
    (by intro x hx; cases x <;> simp_all [Event.isRender, Event.isPrint])
  have hd := dialectTrace_filter env (fun e => e.isPrint || e.isExit)
    (by intro x hx; cases x <;> simp_all [Event.isSet, Event.isPrint, Event.isExit])
    (by intro x hx; cases x <;> simp_all [Event.isRender, Event.isPrint, Event.isExit])
  constructor
  · cases he : (env.CombinedOutput "goose" [(defaulted env).DB, rendered env, subCmd]
        (migrationsDir env)).2 with
    | some err =>
      rw [migrateExec_engine_error env g args subCmd h hv err he]
      rw [List.filter_append, hp]
      simp [Event.isPrint, List.filter_cons, migrationsDir]
    | none =>
      rw [migrateExec_engine_ok env g args subCmd h hv he]
      rw [List.filter_append, hp]
      simp [Event.isPrint, List.filter_cons, migrationsDir]
  · intro he
    rw [migrateExec_engine_ok env g args subCmd h hv he]
    refine ⟨rfl, ?_, ?_⟩
    · rw [List.filter_append, hd]
      simp [Event.isPrint, Event.isExit, List.filter_cons, migrationsDir]
    · simp [stdout_append, dialectTrace_silent, stdout, String.ext_iff, migrationsDir]

/-- Witness for C7: the engine prints a message and exits with status 0. -/
theorem migrateExec_engine_success_witness :
    (sampleEnv (migrateConfig.mk "postgres" "d" "bob" "" "h" 0 "")
        "goose: migrated" none).CheckEnv = none
    ∧ validate (defaulted (sampleEnv (migrateConfig.mk "postgres" "d" "bob" "" "h" 0 "")
        "goose: migrated" none)) = none
    ∧ (migrateExec (sampleEnv (migrateConfig.mk "postgres" "d" "bob" "" "h" 0 "")
        "goose: migrated" none)
      (migrateConfig.mk "" "" "" "" "" 0 "") [] "up").1 = Outcome.returned none
    ∧ stdout (migrateExec (sampleEnv (migrateConfig.mk "postgres" "d" "bob" "" "h" 0 "")
        "goose: migrated" none)
      (migrateConfig.mk "" "" "" "" "" 0 "") [] "up").2.trace = "goose: migrated" :=
  have key := (migrateExec_engine_success
    (sampleEnv (migrateConfig.mk "postgres" "d" "bob" "" "h" 0 "") "goose: migrated" none)
    (migrateConfig.mk "" "" "" "" "" 0 "") [] "up" rfl (by decide)).2 rfl
  ⟨rfl, by decide, key.1, key.2.2⟩

end cmd

/-! ## Known and unknown dialects, order of the steps -/

namespace cmd

theorem outcome_validation_iff (env : Env) (g : migrateConfig) (args : List String)
    (subCmd : String) (h : env.CheckEnv = none) (v : vala.Validation) :
    (migrateExec env g args subCmd).1 = Outcome.returned (some (Error.validation v))
      ↔ validate (defaulted env) = some v := by
  cases hv : validate (defaulted env) with
  | some w =>
    rw [migrateExec_invalid env g args subCmd h w hv]
    simp
  | none =>
    have := migrateExec_valid_outcome env g args subCmd h hv v
    simp [this]

theorem dialectTrace_unknown (env : Env) (hp : (readConfig env).DB ≠ "postgres")
    (hm : (readConfig env).DB ≠ "mysql") : dialectTrace env = [] := by
  simp [dialectTrace, dialectStep, hp, hm]

/-- C8: for a config whose dialect is postgres or mysql, after the defaulting
`Port` is not 0 and `SSLMode` is not empty, no validation error names `port`
or `sslmode`, and a run of `migrateExec` that reaches the validation returns
a validation error exactly when `User`, `Host` or `DBName` is empty. -/
theorem migrateExec_known_dialect (env : Env) (g : migrateConfig) (args : List String)
    (subCmd : String) (h : env.CheckEnv = none)
    (hd : (readConfig env).DB = "postgres" ∨ (readConfig env).DB = "mysql") :
    (migrateExec env g args subCmd).2.migrateCmdConfig.Port ≠ 0
    ∧ (migrateExec env g args subCmd).2.migrateCmdConfig.SSLMode ≠ ""
    ∧ (∀ v, (migrateExec env g args subCmd).1 = Outcome.returned (some (Error.validation v)) →
        "port" ∉ v.Errors ∧ "sslmode" ∉ v.Errors)
    ∧ ((∃ v, (migrateExec env g args subCmd).1 = Outcome.returned (some (Error.validation v)))
        ↔ ((readConfig env).User = "" ∨ (readConfig env).Host = ""
            ∨ (readConfig env).DBName = "")) := by
  have hport : (defaulted env).Port ≠ 0 := by
    rw [defaulted_eq]
    rcases hd with hd | hd
    · by_cases h0 : (readConfig env).Port = 0 <;> simp [hd, h0]
    · by_cases h0 : (readConfig env).Port = 0 <;> simp [hd, h0]
  have hssl : (defaulted env).SSLMode ≠ "" := by
    rw [defaulted_eq]
    rcases hd with hd | hd
    · by_cases h0 : (readConfig env).SSLMode = "" <;> simp [hd, h0]
    · by_cases h0 : (readConfig env).SSLMode = "" <;> simp [hd, h0]
  have hdb : (defaulted env).DB ≠ "" := by
    rw [defaulted_eq]
    rcases hd with hd | hd <;> simp [hd]
  have huser : (defaulted env).User = (readConfig env).User := by rw [defaulted_eq]
  have hhost : (defaulted env).Host = (readConfig env).Host := by rw [defaulted_eq]
  have hname : (defaulted env).DBName = (readConfig env).DBName := by rw [defaulted_eq]
  rw [migrateExec_config env g args subCmd h]
  refine ⟨hport, hssl, ?_, ?_⟩
  · intro v hv
    rw [outcome_validation_iff env g args subCmd h v, validate_eq] at hv
    split at hv
    · simp at hv
    · simp only [Option.some.injEq] at hv
      subst hv
      simp [hport, hssl, hdb]
  · constructor
    · rintro ⟨v, hv⟩
      rw [outcome_validation_iff env g args subCmd h v] at hv
      by_contra hcon
      simp only [not_or] at hcon
      have hnone := (validate_none_iff (defaulted env)).mpr
        ⟨hdb, huser ▸ hcon.1, hhost ▸ hcon.2.1, hport, hname ▸ hcon.2.2, hssl⟩
      rw [hnone] at hv
      simp at hv
    · intro hor
      cases hv : validate (defaulted env) with
      | some v => exact ⟨v, (outcome_validation_iff env g args subCmd h v).mpr hv⟩
      | none =>
        have hall := (validate_none_iff (defaulted env)).mp hv
        rcases hor with h1 | h1 | h1
        · exact absurd (huser.trans h1) hall.2.1
        · exact absurd (hhost.trans h1) hall.2.2.1
        · exact absurd (hname.trans h1) hall.2.2.2.2.1

/-- Witness for C8: a mysql config with port 0, empty sslmode and no host. -/
theorem migrateExec_known_dialect_witness :
    (sampleEnv (migrateConfig.mk "mysql" "d" "bob" "" "" 0 "") "" none).CheckEnv = none
    ∧ (readConfig (sampleEnv (migrateConfig.mk "mysql" "d" "bob" "" "" 0 "") "" none)).DB
        = "mysql"
    ∧ (migrateExec (sampleEnv (migrateConfig.mk "mysql" "d" "bob" "" "" 0 "") "" none)
        (migrateConfig.mk "" "" "" "" "" 0 "") [] "version").2.migrateCmdConfig.Port ≠ 0
    ∧ ∃ v, (migrateExec (sampleEnv (migrateConfig.mk "mysql" "d" "bob" "" "" 0 "") "" none)
        (migrateConfig.mk "" "" "" "" "" 0 "") [] "version").1
          = Outcome.returned (some (Error.validation v)) :=
  have key := migrateExec_known_dialect
    (sampleEnv (migrateConfig.mk "mysql" "d" "bob" "" "" 0 "") "" none)
    (migrateConfig.mk "" "" "" "" "" 0 "") [] "version" rfl (Or.inr rfl)
  ⟨rfl, rfl, key.1, key.2.2.2.mpr (Or.inr (Or.inl rfl))⟩

/-- C9 as stated fails: for a postgres config without a user the run ends
with a validation error naming `user`, yet `postgresConnStr` has been called,
on the config that fails validation, before the validation. -/
theorem render_before_validation_counterexample :
    validatedBeforeRender
        (migrateExec (sampleEnv (migrateConfig.mk "postgres" "d" "" "" "h" 0 "") "" none)
          (migrateConfig.mk "" "" "" "" "" 0 "") [] "up").2.trace = false
    ∧ (migrateExec (sampleEnv (migrateConfig.mk "postgres" "d" "" "" "h" 0 "") "" none)
          (migrateConfig.mk "" "" "" "" "" 0 "") [] "up").1
        = Outcome.returned (some (Error.validation ⟨["user"]⟩))
    ∧ (migrateExec (sampleEnv (migrateConfig.mk "postgres" "d" "" "" "h" 0 "") "" none)
          (migrateConfig.mk "" "" "" "" "" 0 "") [] "up").2.trace
        = [Event.SetString "sslmode" "require", Event.SetInt "port" 5432,
            Event.postgresConnStr (migrateConfig.mk "postgres" "d" "" "" "h" 5432 "require"),
            Event.Validate (migrateConfig.mk "postgres" "d" "" "" "h" 5432 "require")] := by
  decide

/-- C9, amended: a run of `migrateExec` that reaches the defaulting proceeds
in the order default, render, validate, invoke.  Its trace is the writes of
the defaults, then for postgres and mysql the call of the matching renderer
on the defaulted config (no renderer call for another dialect), then the
validation of the defaulted config, then the rest; the rest is empty when the
validation fails, and starts with the launch of the engine, followed only by
prints and the exit, when the validation passes. -/
theorem migrateExec_step_order (env : Env) (g : migrateConfig) (args : List String)
    (subCmd : String) (h : env.CheckEnv = none) :
    ∃ sets rest : List Event,
      (∀ e ∈ sets, e.isSet = true)
      ∧ (migrateExec env g args subCmd).2.trace
          = sets ++
            (if (readConfig env).DB = "postgres" then [Event.postgresConnStr (defaulted env)]
              else if (readConfig env).DB = "mysql" then [Event.mysqlConnStr (defaulted env)]
              else [])
            ++ Event.Validate (defaulted env) :: rest
      ∧ (validate (defaulted env) ≠ none → rest = [])
      ∧ (validate (defaulted env) = none →
          ∃ tail : List Event,
            rest = Event.CombinedOutput "goose" [(defaulted env).DB, rendered env, subCmd]
                (env.filepathJoin env.AppPath "migrations") :: tail
            ∧ ∀ e ∈ tail, (e.isPrint || e.isExit) = true) := by
  obtain ⟨sets, hs, ht⟩ := dialectTrace_sets_render env
  cases hv : validate (defaulted env) with
  | some v =>
    refine ⟨sets, [], hs, ?_, fun _ => rfl, fun hcon => by simp at hcon⟩
    rw [migrateExec_invalid env g args subCmd h v hv, ← ht]
  | none =>
    cases he : (env.CombinedOutput "goose" [(defaulted env).DB, rendered env, subCmd]
        (migrationsDir env)).2 with
    | some err =>
      refine ⟨sets,
        [Event.CombinedOutput "goose" [(defaulted env).DB, rendered env, subCmd]
            (env.filepathJoin env.AppPath "migrations"),
          Event.Print (env.CombinedOutput "goose"
            [(defaulted env).DB, rendered env, subCmd] (migrationsDir env)).1,
          Event.Println err, Event.Exit 1],
        hs, ?_, fun hcon => absurd rfl hcon, fun _ => ⟨_, rfl, ?_⟩⟩
      · rw [migrateExec_engine_error env g args subCmd h hv err he, ← ht]
        rfl
      · intro e hmem
        simp only [List.mem_cons, List.mem_singleton, List.not_mem_nil, or_false] at hmem
        rcases hmem with rfl | rfl | rfl <;> rfl
    | none =>
      refine ⟨sets,
        [Event.CombinedOutput "goose" [(defaulted env).DB, rendered env, subCmd]
            (env.filepathJoin env.AppPath "migrations"),
          Event.Print (env.CombinedOutput "goose"
            [(defaulted env).DB, rendered env, subCmd] (migrationsDir env)).1],
        hs, ?_, fun hcon => absurd rfl hcon, fun _ => ⟨_, rfl, ?_⟩⟩
      · rw [migrateExec_engine_ok env g args subCmd h hv he, ← ht]
        rfl
      · intro e hmem
        simp only [List.mem_singleton] at hmem
        subst hmem
        rfl

/-- Witness for the amended C9: a complete postgres config. -/
theorem migrateExec_step_order_witness :
    (sampleEnv (migrateConfig.mk "postgres" "d" "bob" "" "h" 5432 "disable") "" none).CheckEnv
        = none
    ∧ ∃ sets rest : List Event,
      (∀ e ∈ sets, e.isSet = true)
      ∧ (migrateExec (sampleEnv (migrateConfig.mk "postgres" "d" "bob" "" "h" 5432 "disable")
            "" none) (migrateConfig.mk "" "" "" "" "" 0 "") [] "down").2.trace
          = sets ++ [Event.postgresConnStr
              (migrateConfig.mk "postgres" "d" "bob" "" "h" 5432 "disable")]
            ++ Event.Validate (migrateConfig.mk "postgres" "d" "bob" "" "h" 5432 "disable")
              :: rest := by
  obtain ⟨sets, rest, hs, ht, _, _⟩ := migrateExec_step_order
    (sampleEnv (migrateConfig.mk "postgres" "d" "bob" "" "h" 5432 "disable") "" none)
    (migrateConfig.mk "" "" "" "" "" 0 "") [] "down" rfl
  exact ⟨rfl, sets, rest, hs, ht⟩

/-- C10: for a dialect that is not empty and is neither postgres nor mysql,
a run of `migrateExec` that reaches the defaulting behaves as follows.  If
`User`, `Host`, `DBName`, `SSLMode` are non-empty and `Port` is not 0, no
renderer is called, validation passes, and the engine is launched once with
the argument list `[DB, "", subCmd]`.  If `Port` is 0 or `SSLMode` is empty,
nothing is written back, the config stays as read, and a validation error is
returned. -/
theorem migrateExec_unknown_dialect (env : Env) (g : migrateConfig) (args : List String)
    (subCmd : String) (h : env.CheckEnv = none) (hne : (readConfig env).DB ≠ "")
    (hp : (readConfig env).DB ≠ "postgres") (hm : (readConfig env).DB ≠ "mysql") :
    (((readConfig env).User ≠ "" ∧ (readConfig env).Host ≠ "" ∧ (readConfig env).DBName ≠ ""
        ∧ (readConfig env).SSLMode ≠ "" ∧ (readConfig env).Port ≠ 0) →
      (migrateExec env g args subCmd).2.trace.filter Event.isRender = []
      ∧ validate (migrateExec env g args subCmd).2.migrateCmdConfig = none
      ∧ (∀ v, (migrateExec env g args subCmd).1
          ≠ Outcome.returned (some (Error.validation v)))
      ∧ (migrateExec env g args subCmd).2.trace.filter Event.isLaunch
          = [Event.CombinedOutput "goose" [(readConfig env).DB, "", subCmd]
              (env.filepathJoin env.AppPath "migrations")])
    ∧ (((readConfig env).Port = 0 ∨ (readConfig env).SSLMode = "") →
      (migrateExec env g args subCmd).2.migrateCmdConfig = readConfig env
      ∧ (migrateExec env g args subCmd).2.trace.filter Event.isSet = []
      ∧ ∃ v, (migrateExec env g args subCmd).1
          = Outcome.returned (some (Error.validation v))) := by
  have hdef : defaulted env = readConfig env := by
    rw [defaulted_eq]; simp [hp, hm]
  have hren : rendered env = "" := by
    rw [rendered_eq, hdef]; simp [hp, hm]
  have htr := dialectTrace_unknown env hp hm
  constructor
  · rintro ⟨h1, h2, h3, h4, h5⟩
    have hv : validate (defaulted env) = none := by
      rw [validate_none_iff, hdef]
      exact ⟨hne, h1, h2, h5, h3, h4⟩
    refine ⟨?_, ?_, fun v => migrateExec_valid_outcome env g args subCmd h hv v, ?_⟩
    · cases he : (env.CombinedOutput "goose" [(defaulted env).DB, rendered env, subCmd]
          (migrationsDir env)).2 with
      | some err =>
        rw [migrateExec_engine_error env g args subCmd h hv err he, htr]
        simp [Event.isRender, List.filter_cons]
      | none =>
        rw [migrateExec_engine_ok env g args subCmd h hv he, htr]
        simp [Event.isRender, List.filter_cons]
    · rw [migrateExec_config env g args subCmd h]
      exact hv
    · rw [launch_filter env g args subCmd h hv, hren, hdef]
      rfl
  · intro hor
    have hnot : validate (defaulted env) ≠ none := by
      rw [Ne, validate_none_iff, hdef]
      rintro ⟨_, _, _, h5, _, h4⟩
      rcases hor with h0 | h0
      · exact h5 h0
      · exact h4 h0
    cases hv : validate (defaulted env) with
    | none => exact absurd hv hnot
    | some v =>
      refine ⟨?_, ?_, v, ?_⟩
      · rw [migrateExec_config env g args subCmd h, hdef]
      · rw [migrateExec_invalid env g args subCmd h v hv, htr]
        simp [Event.isSet, List.filter_cons]
      · rw [migrateExec_invalid env g args subCmd h v hv]

/-- Witness for C10: dialect `sqlite3`, once with a complete config and once
with port 0. -/
theorem migrateExec_unknown_dialect_witness :
    ((sampleEnv (migrateConfig.mk "sqlite3" "d" "bob" "" "h" 1 "off") "" none).CheckEnv = none
      ∧ (readConfig (sampleEnv (migrateConfig.mk "sqlite3" "d" "bob" "" "h" 1 "off") "" none)).DB
          = "sqlite3"
      ∧ (migrateExec (sampleEnv (migrateConfig.mk "sqlite3" "d" "bob" "" "h" 1 "off") "" none)
          (migrateConfig.mk "" "" "" "" "" 0 "") [] "up").2.trace.filter Event.isLaunch
        = [Event.CombinedOutput "goose" ["sqlite3", "", "up"] "/app/migrations"])
    ∧ ((readConfig (sampleEnv (migrateConfig.mk "sqlite3" "d" "bob" "" "h" 0 "off") "" none)).Port
          = 0
      ∧ ∃ v, (migrateExec (sampleEnv (migrateConfig.mk "sqlite3" "d" "bob" "" "h" 0 "off") "" none)
          (migrateConfig.mk "" "" "" "" "" 0 "") [] "up").1
        = Outcome.returned (some (Error.validation v))) :=
  ⟨⟨rfl, rfl, ((migrateExec_unknown_dialect
      (sampleEnv (migrateConfig.mk "sqlite3" "d" "bob" "" "h" 1 "off") "" none)
      (migrateConfig.mk "" "" "" "" "" 0 "") [] "up" rfl (by decide) (by decide) (by decide)).1
      ⟨by decide, by decide, by decide, by decide, by decide⟩).2.2.2⟩,
   ⟨rfl, ((migrateExec_unknown_dialect
      (sampleEnv (migrateConfig.mk "sqlite3" "d" "bob" "" "h" 0 "off") "" none)
      (migrateConfig.mk "" "" "" "" "" 0 "") [] "up" rfl (by decide) (by decide) (by decide)).2
      (Or.inl rfl)).2.2⟩⟩

end cmd
